import Mathlib

/-!
Verification development for the GeospatialAnalyticsDashboard backend
(`src/backend/geospatial_analysis.py` and `src/backend/app.py`).

The backend is a thin orchestration layer over the Google Earth Engine (EE)
client library and an HTTP request handler.  We shallowly embed it as
follows:

* An EE image is modelled by `EEImage`: its cloud-cover metadata property,
  its acquisition timestamp `system:time_start` (milliseconds), whether its
  footprint intersects the AOI (the outcome of the platform-side
  `filterBounds` test), and the per-band reflectance value of one
  representative pixel (`bands : String → ℚ`).
* An EE image collection is a list of `EEImage`.  Platform-side regional
  reductions (`reduceRegion`, `getInfo`, `getMapId`) are remote black-box
  computations; their outcomes are passed in as explicit oracle functions
  or `Option String` failure flags, exactly one per network round trip the
  Python code performs.
* Fallible Python code is modelled with `Except String`, carrying the
  exception's message text.
* Machine floats of the source appear only as decimal constants
  (`0.0001`, `0.95`, `0.5`, ...); they are modelled as exact rationals.
-/

/-- One Earth Engine image: cloud metadata (`CLOUDY_PIXEL_PERCENTAGE` for
Sentinel-2, `CLOUD_COVER` for Landsat), acquisition time in ms
(`system:time_start`), whether its footprint intersects the AOI, and the
band values of a representative pixel. -/
structure EEImage where
  cloud : ℚ
  time : Nat
  inBounds : Bool
  bands : String → ℚ

/-- ASCII lowercase of one character (Python `str.lower` restricted to the
ASCII identifiers this code compares). -/
def charLower (c : Char) : Char := if c.isUpper then Char.ofNat (c.toNat + 32) else c

/-- Python `str.lower()` over the characters of the string. -/
def strLower (s : String) : String := String.mk (s.data.map charLower)

/-- Whitespace characters stripped by Python `str.strip()`. -/
def isWS (c : Char) : Bool := c == ' ' || c == '\t' || c == '\n' || c == '\r'

/-- Python `str.strip()`: drop leading and trailing whitespace. -/
def pyStrip (s : String) : String :=
  String.mk (((s.data.dropWhile isWS).reverse.dropWhile isWS).reverse)

/-- Band mapping of `get_collection`: semantic names → native band ids. -/
structure BandMap where
  red : String
  green : String
  blue : String
  nir : String
  swir : String
deriving DecidableEq

/-- Sentinel-2 band map from `get_collection`. -/
def s2BandMap : BandMap := ⟨"B4", "B3", "B2", "B8", "B11"⟩

/-- Landsat-8 band map from `get_collection`. -/
def l8BandMap : BandMap := ⟨"SR_B4", "SR_B3", "SR_B2", "SR_B5", "SR_B6"⟩

/-- Sentinel-2 reflectance scaling `img.multiply(0.0001)` followed by
`copyProperties` (properties, hence `cloud`, `time`, `inBounds`, are kept). -/
def scaleS2 (img : EEImage) : EEImage :=
  { img with bands := fun b => img.bands b * (1 / 10000 : ℚ) }

/-- Landsat-8 reflectance scaling `img.multiply(0.0000275).add(-0.2)`
followed by `copyProperties`. -/
def scaleL8 (img : EEImage) : EEImage :=
  { img with bands := fun b => img.bands b * (275 / 10000000 : ℚ) + (-2 / 10 : ℚ) }

/-- EE `filterDate(start, end)`: start inclusive, end exclusive. -/
def inDateRange (startT endT : Nat) (img : EEImage) : Bool :=
  decide (startT ≤ img.time) && decide (img.time < endT)

/-- Model of `get_collection(aoi, start_date, end_date, satellite, cloud_perc)`.
`catalog` maps an EE dataset id to the platform's images for it.  The
Sentinel-2 branch filters by bounds, date and
`ee.Filter.lte('CLOUDY_PIXEL_PERCENTAGE', cloud_perc)` and scales; the
Landsat-8 branch filters by bounds and date only (the source applies no
cloud filter there) and scales.  Any other satellite raises
`ValueError("Unsupported satellite. Use: sentinel2, landsat8")`. -/
def get_collection (startT endT : Nat) (satellite : String) (cloudPerc : ℚ)
    (catalog : String → List EEImage) :
    Except String (List EEImage × BandMap × Nat) :=
  if strLower satellite == "sentinel2" then
    .ok (((catalog "COPERNICUS/S2_SR_HARMONIZED").filter
        (fun i => i.inBounds && inDateRange startT endT i && decide (i.cloud ≤ cloudPerc))).map scaleS2,
      s2BandMap, 10)
  else if strLower satellite == "landsat8" then
    .ok (((catalog "LANDSAT/LC08/C02/T1_L2").filter
        (fun i => i.inBounds && inDateRange startT endT i)).map scaleL8,
      l8BandMap, 30)
  else
    .error "Unsupported satellite. Use: sentinel2, landsat8"

/-- Calendar day of a `system:time_start` timestamp in ms: the source
formats timestamps as `YYYY-MM-DD` strings, whose lexicographic order and
equality agree with the day number `t / 86400000`. -/
def dateOf (t : Nat) : Nat := t / 86400000

/-- Distinct acquisition dates of `get_latest_image`:
`dates.distinct()` then `.sort().reverse()` (ascending sort, then reversed
to descending). -/
def uniqueDates (coll : List EEImage) : List Nat :=
  (((coll.map (fun i => dateOf i.time)).dedup).insertionSort (· ≤ ·)).reverse

/-- The source's coverage test `coverage is not None and coverage >= 0.95`,
where `coverage` is the platform's mean of the red-band mask over the AOI. -/
def covOK : Option ℚ → Bool
  | some c => decide ((95 : ℚ) / 100 ≤ c)
  | none => false

/-- The date loop of `get_latest_image`: for each date (given newest first),
skip it if no image of the collection falls on that day
(`daily_collection.size == 0`), otherwise ask the platform for the red-band
coverage fraction of the one-day mosaic (`cov`), and return the first date
passing the `>= 0.95` test. -/
def scanDates (coll : List EEImage) (cov : Nat → Option ℚ) : List Nat → Option Nat
  | [] => none
  | d :: rest =>
    if (coll.filter (fun i => dateOf i.time == d)).isEmpty then scanDates coll cov rest
    else if covOK (cov d) then some d
    else scanDates coll cov rest

/-- The fallback `collection.sort('system:time_start', False).first()`:
the image with the maximal acquisition timestamp (none if empty). -/
def latestByTime : List EEImage → Option EEImage
  | [] => none
  | i :: rest => some (rest.foldl (fun a j => if a.time < j.time then j else a) i)

/-- Result of `get_latest_image`: either the indexed, AOI-clipped one-day
mosaic of a selected date, or the fallback single image identified by its
acquisition timestamp (in both cases the requested indices are attached by
`add_indices` before returning). -/
inductive LatestSel where
  | dateMosaic : Nat → LatestSel
  | fallbackImg : Nat → LatestSel
deriving DecidableEq

/-- Model of `get_latest_image(collection, band_map, indices, aoi)`.  All
internal failures are wrapped by the function's own
`except ... raise ValueError(f"Failed to retrieve latest image: {str(e)}")`. -/
def get_latest_image (coll : List EEImage) (cov : Nat → Option ℚ) (aoi : Option Unit) :
    Except String LatestSel :=
  match aoi with
  | none => .error ("Failed to retrieve latest image: " ++ "AOI must be provided for clipping.")
  | some _ =>
    match scanDates coll cov (uniqueDates coll) with
    | some d => .ok (.dateMosaic d)
    | none =>
      match latestByTime coll with
      | some i => .ok (.fallbackImg i.time)
      | none =>
        .error ("Failed to retrieve latest image: " ++
          "No images found in the collection for the specified criteria.")

/-- A Landsat-8 image with 90 percent cloud cover inside bounds and date
range, used to exhibit the missing Landsat cloud filter. -/
def imgCloudy : EEImage := ⟨90, 5, true, fun _ => 0⟩

/-- A catalog answering every dataset id with the single cloudy image. -/
def catCloudy : String → List EEImage := fun _ => [imgCloudy]

/-- A low-cloud image used as a witness input. -/
def imgClean : EEImage := ⟨5, 3, true, fun _ => 0⟩

/-- A catalog answering every dataset id with the single clean image. -/
def catClean : String → List EEImage := fun _ => [imgClean]

/-- Images on three consecutive days (days 3, 2, 1, newest first). -/
def imgW3 : EEImage := ⟨5, 259200000, true, fun _ => 0⟩

/-- Day-2 image of the three-day example collection. -/
def imgW2 : EEImage := ⟨5, 172800000, true, fun _ => 0⟩

/-- Day-1 image of the three-day example collection. -/
def imgW1 : EEImage := ⟨5, 86400000, true, fun _ => 0⟩

/-- The three-day example collection, newest first. -/
def collW : List EEImage := [imgW3, imgW2, imgW1]

/-- Per-date coverage fractions 0.80, 0.97, 0.60 for days 3, 2, 1. -/
def covW : Nat → Option ℚ := fun d =>
  if d == 3 then some (80 / 100)
  else if d == 2 then some (97 / 100)
  else if d == 1 then some (60 / 100)
  else none

/-- A coverage oracle that never returns a value. -/
def covNone : Nat → Option ℚ := fun _ => none

/-- Soil-brightness constant `L` of `get_savi`. -/
def saviL : ℚ := 1 / 2

/-- Model of `get_savi(image, band_map)`: the per-pixel expression
`((NIR - RED) / (NIR + RED + L)) * (1 + L)` with `NIR`/`RED` selected
through the band map. -/
def get_savi (img : EEImage) (bm : BandMap) : ℚ :=
  ((img.bands bm.nir - img.bands bm.red) / (img.bands bm.nir + img.bands bm.red + saviL))
    * (1 + saviL)

/-- A pixel with near-infrared reflectance 0.5 and red reflectance 0.1 in
Sentinel-2 band naming, used to evaluate the SAVI formula. -/
def saviTestImage : EEImage :=
  ⟨0, 0, true, fun b => if b == "B8" then 1 / 2 else if b == "B4" then 1 / 10 else 0⟩

/-- One value of a time-series record: the acquisition date or a numeric
statistic (possibly null when the platform returned no value). -/
inductive RecVal where
  | date : Nat → RecVal
  | num : Option ℚ → RecVal
deriving DecidableEq

/-- One time-series record of `compute_time_series_stats.process_image`:
the acquisition date plus, for each requested index, the `mean_`/`min_`/
`max_` fields.  The platform's `reduceRegion` values are supplied by the
oracle `reduceStat` (the source's 3-decimal formatting is folded into the
oracle's value). -/
def recordOf (reduceStat : EEImage → String → Option ℚ) (indices : List String)
    (img : EEImage) : List (String × RecVal) :=
  ("date", RecVal.date (dateOf img.time)) ::
    indices.flatMap (fun b =>
      [("mean_" ++ b, RecVal.num (reduceStat img ("mean_" ++ b))),
       ("min_" ++ b, RecVal.num (reduceStat img ("min_" ++ b))),
       ("max_" ++ b, RecVal.num (reduceStat img ("max_" ++ b)))])

/-- Model of `compute_time_series_stats(collection, aoi, scale, band_map,
indices)`: one record per image of the collection; the single `getInfo`
round trip may fail (`tsFail`), in which case the error is wrapped as
`"Failed to compute time-series stats: ..."`. -/
def computeTimeSeriesStats (coll : List EEImage) (indices : List String)
    (reduceStat : EEImage → String → Option ℚ) (tsFail : Option String) :
    Except String (List (List (String × RecVal))) :=
  match tsFail with
  | some m => .error ("Failed to compute time-series stats: " ++ m)
  | none => .ok (coll.map (recordOf reduceStat indices))

/-- Model of `compute_stats(image, aoi, scale, indices)`: per-index means,
vegetation cover and healthy area (null unless NDVI was requested), and the
total AOI area; numeric values and their rounding are supplied by the
oracle `statVal`, failures of the platform round trips by `statsFail`. -/
def computeStats (indices : List String) (statVal : String → Option ℚ)
    (statsFail : Option String) : Except String (List (String × Option ℚ)) :=
  match statsFail with
  | some m => .error ("Failed to compute stats: " ++ m)
  | none =>
    .ok ((indices.map (fun b => ("mean_" ++ b, statVal ("mean_" ++ b)))) ++
      [("veg_cover_percent", if indices.contains "NDVI" then statVal "veg_cover_percent" else none),
       ("total_area_km2", statVal "total_area_km2"),
       ("healthy_area_km2", if indices.contains "NDVI" then statVal "healthy_area_km2" else none)])

/-- Model of `get_visualization_urls(image, band_map, indices)`: the `rgb`
composite layer plus one layer per requested index, each mapped to the tile
URL the platform returns (`urlOf`); a `getMapId` failure (`visFail`) is
wrapped as `"Failed to generate visualization URLs: ..."`. -/
def getVisualizationUrls (indices : List String) (urlOf : String → String)
    (visFail : Option String) : Except String (List (String × String)) :=
  match visFail with
  | some m => .error ("Failed to generate visualization URLs: " ++ m)
  | none => .ok (("rgb", urlOf "rgb") :: indices.map (fun i => (i, urlOf i)))

/-- Platform round trips performed by `start_automation`, in order:
`ee.Initialize`, the time-series `getInfo`, the date/coverage `getInfo`
calls of `get_latest_image`, the summary-stats `getInfo` calls, and the
`getMapId` calls.  Geometry conversion and collection construction are
client-side/lazy and perform no round trip. -/
inductive EEEvent where
  | auth : EEEvent
  | tsQuery : EEEvent
  | latestQuery : EEEvent
  | statsQuery : EEEvent
  | visQuery : EEEvent
deriving DecidableEq

/-- Environment of one `start_automation` run: process configuration and
the outcomes of every external interaction (Earth Engine initialization,
GeoJSON parsing by `geemap`, the platform's date parsing, image catalog,
and the reduction/URL oracles with their failure flags). -/
structure PipelineEnv where
  serviceAccountEmail : Option String
  privateKey : Option String
  eeInit : Except String Unit
  geojsonParse : Except String Unit
  parseDate : String → Nat
  catalog : String → List EEImage
  reduceStat : EEImage → String → Option ℚ
  tsFail : Option String
  coverage : Nat → Option ℚ
  statVal : String → Option ℚ
  statsFail : Option String
  urlOf : String → String
  visFail : Option String

/-- Python `os.path.splitext(p)[1]`: the suffix from the last dot on
(empty when the path has no dot).  Directory components are assumed
dot-free, as is the case for the `uploads/<filename>` paths the handler
builds. -/
def fileExtension (p : String) : String :=
  if p.data.contains '.' then
    "." ++ String.mk ((p.data.reverse.takeWhile (fun c => c ≠ '.')).reverse)
  else ""

/-- Model of `convert_to_ee(file_path)`.  The extension check happens
first; `geemap.geojson_to_ee` plus the geometry merge/simplify steps are
client-side and lazy, their outcome given by `gp`.  Every failure —
including the unsupported-format `ValueError` raised inside the `try` —
is wrapped by the function's own handler as
`"Failed to convert file to Earth Engine geometry: ..."`. -/
def convert_to_ee (gp : Except String Unit) (filePath : String) : Except String Unit :=
  if strLower (fileExtension filePath) == ".geojson"
      || strLower (fileExtension filePath) == ".json" then
    match gp with
    | .ok _ => .ok ()
    | .error m => .error ("Failed to convert file to Earth Engine geometry: " ++ m)
  else
    .error ("Failed to convert file to Earth Engine geometry: " ++
      "Unsupported file format. Supported: .geojson, .json")

/-- The authentication step of `start_automation`: missing environment
variables fail before `ee.Initialize` is ever called (the Bool records
whether the platform call was attempted); an `ee.Initialize` failure is
wrapped as `"Failed to initialize Earth Engine: ..."`. -/
def eeAuth (env : PipelineEnv) : Bool × Except String Unit :=
  match env.serviceAccountEmail, env.privateKey with
  | some _, some _ =>
    (true,
      match env.eeInit with
      | .ok _ => .ok ()
      | .error m => .error ("Failed to initialize Earth Engine: " ++ m))
  | _, _ =>
    (false, .error ("Failed to initialize Earth Engine: " ++
      "Environment variables SERVICE_ACCOUNT_EMAIL or PRIVATE_KEY not set"))

/-- The three-part result of `start_automation`
(`{time_series, stats, visualization}`). -/
structure AnalysisOutput where
  time_series : List (List (String × RecVal))
  stats : List (String × Option ℚ)
  visualization : List (String × String)

/-- Model of `start_automation(file_path, start_date, end_date, satellite,
cloud_percentage, indices)`: authenticate, convert the AOI file, build the
filtered collection, compute the time series, select the representative
image, compute summary stats, and build visualization URLs — in that
order, stopping at the first failure.  The first component records which
platform round trips were performed before returning. -/
def start_automation (env : PipelineEnv) (filePath startDate endDate satellite : String)
    (cloudPerc : ℚ) (indices : List String) :
    List EEEvent × Except String AnalysisOutput :=
  match eeAuth env with
  | (called, .error e) => (if called then [EEEvent.auth] else [], .error e)
  | (_, .ok _) =>
    match convert_to_ee env.geojsonParse filePath with
    | .error e => ([EEEvent.auth], .error e)
    | .ok _ =>
      match get_collection (env.parseDate startDate) (env.parseDate endDate)
          satellite cloudPerc env.catalog with
      | .error e => ([EEEvent.auth], .error e)
      | .ok (coll, _bm, _scale) =>
        match computeTimeSeriesStats coll indices env.reduceStat env.tsFail with
        | .error e => ([EEEvent.auth, EEEvent.tsQuery], .error e)
        | .ok ts =>
          match get_latest_image coll env.coverage (some ()) with
          | .error e => ([EEEvent.auth, EEEvent.tsQuery, EEEvent.latestQuery], .error e)
          | .ok _sel =>
            match computeStats indices env.statVal env.statsFail with
            | .error e =>
              ([EEEvent.auth, EEEvent.tsQuery, EEEvent.latestQuery, EEEvent.statsQuery], .error e)
            | .ok st =>
              match getVisualizationUrls indices env.urlOf env.visFail with
              | .error e =>
                ([EEEvent.auth, EEEvent.tsQuery, EEEvent.latestQuery, EEEvent.statsQuery,
                  EEEvent.visQuery], .error e)
              | .ok vis =>
                ([EEEvent.auth, EEEvent.tsQuery, EEEvent.latestQuery, EEEvent.statsQuery,
                  EEEvent.visQuery], .ok ⟨ts, st, vis⟩)

/-- The multipart form of one `/api/analyze` request: the uploaded file's
name (`none` when no file part is present) and the five form fields
(`none` when absent; `request.form.get` never distinguishes absent from
missing). -/
structure AnalyzeRequest where
  filename : Option String
  startDate : Option String
  endDate : Option String
  satellite : Option String
  cloudPercentage : Option String
  indices : Option String

/-- Numeric value of a nonempty all-digit character list (none otherwise). -/
def digitsVal : List Char → Option Nat
  | [] => none
  | cs =>
    if cs.all (fun c => c.isDigit) then
      some (cs.foldl (fun a c => a * 10 + (c.toNat - 48)) 0)
    else none

/-- Python `int(str)`: optional surrounding whitespace, optional sign,
then decimal digits; anything else raises `ValueError`.  (Underscore
digit grouping is not modelled.) -/
def pyIntParse (s : String) : Option Int :=
  match (pyStrip s).data with
  | '+' :: rest => (digitsVal rest).map (fun n => (n : Int))
  | '-' :: rest => (digitsVal rest).map (fun n => -(n : Int))
  | rest => (digitsVal rest).map (fun n => (n : Int))

/-- Model of the `/api/analyze` handler `analyze()` in `app.py`: the
validation sequence (file part, required fields, `int`/`json.loads`
parses), the upload save (`saveOk` is whether the saved file exists), the
`start_automation` call, and the outer `except Exception` that maps any
pipeline error to a 500 response with message
`"Internal server message: <text>"`.  `jsonLoadsArr` is the oracle for
`json.loads` on the `indices` field (decoded array of strings, or the
`ValueError` message). -/
def analyze (req : AnalyzeRequest) (jsonLoadsArr : String → Except String (List String))
    (saveOk : Bool) (env : PipelineEnv) : Nat × String :=
  match req.filename with
  | none => (400, "No file uploaded or invalid file")
  | some fn =>
    if fn == "" then (400, "No file uploaded or invalid file")
    else
      match req.startDate, req.endDate, req.satellite, req.cloudPercentage, req.indices with
      | some sd, some ed, some sat, some cps, some idxs =>
        if sd == "" || ed == "" || sat == "" || cps == "" || idxs == "" then
          (400, "Missing required form fields")
        else
          match pyIntParse cps with
          | none =>
            (400, "Invalid form data: invalid literal for int() with base 10: \x27" ++ cps ++ "\x27")
          | some cp =>
            match jsonLoadsArr idxs with
            | .error m => (400, "Invalid form data: " ++ m)
            | .ok idxList =>
              if saveOk then
                match (start_automation env ("uploads/" ++ fn) sd ed sat (cp : ℚ) idxList).2 with
                | .error e => (500, "Internal server message: " ++ e)
                | .ok _ => (200, "Analysis complete")
              else (500, "Failed to save uploaded file")
      | _, _, _, _, _ => (400, "Missing required form fields")

/-- A JSON value of the chat request body, as far as the handler inspects
it: the `message` field may be a string, `null`, or a number. -/
inductive PyVal where
  | str : String → PyVal
  | null : PyVal
  | int : Int → PyVal
deriving DecidableEq

/-- Python `dict.get(key, default)` on a JSON object. -/
def pyGet (d : List (String × PyVal)) (k : String) (dflt : PyVal) : PyVal :=
  match d.find? (fun kv => kv.1 == k) with
  | some kv => kv.2
  | none => dflt

/-- Python `.strip()` on an arbitrary value: succeeds on strings, raises
`AttributeError` otherwise (the text is `str(e)` of that error). -/
def pyStripAttr : PyVal → Except String String
  | .str s => .ok (pyStrip s)
  | .null => .error "\x27NoneType\x27 object has no attribute \x27strip\x27"
  | .int _ => .error "\x27int\x27 object has no attribute \x27strip\x27"

/-- Outcome of the single `requests.post` to the text-generation service:
an HTTP reply, a connection error, a timeout, or some other raised
exception. -/
inductive ServiceOutcome where
  | ok : Nat → String → ServiceOutcome
  | connErr : ServiceOutcome
  | timeout : ServiceOutcome
  | raised : String → ServiceOutcome

/-- Response of the `/api/chat` handler plus whether the text-generation
service was contacted at all. -/
structure ChatResult where
  status : Nat
  message : String
  calledService : Bool
deriving DecidableEq

/-- The `timeout=30` argument of the handler's `requests.post` call. -/
def ollamaTimeout : Nat := 30

/-- Model of the `/api/chat` handler `chat()` in `app.py`: extract and
strip `message`, reject empty messages with 400 before any service call,
then map the service outcome to 200/500/503/504, with the trailing
`except Exception` producing `"Internal server error: <text>"`. -/
def chat (data : List (String × PyVal)) (svc : ServiceOutcome) : ChatResult :=
  match pyStripAttr (pyGet data "message" (.str "")) with
  | .error m => ⟨500, "Internal server error: " ++ m, false⟩
  | .ok userMessage =>
    if userMessage == "" then ⟨400, "No message provided", false⟩
    else
      match svc with
      | .ok st _ =>
        if st == 200 then ⟨200, "Success", true⟩
        else ⟨500, "Failed to get response from AI", true⟩
      | .connErr =>
        ⟨503, "Cannot connect to Ollama. Please ensure Ollama is running with llama3.1 model.", true⟩
      | .timeout => ⟨504, "AI response timeout. Please try again.", true⟩
      | .raised m => ⟨500, "Internal server error: " ++ m, true⟩

/-- An in-range, in-bounds, low-cloud catalog image for the all-success
pipeline environment. -/
def img0 : EEImage := ⟨10, 5, true, fun _ => 0⟩

/-- An environment in which every external interaction succeeds: both
credentials set, initialization and GeoJSON parsing fine, a one-image
catalog inside the date range, full red-band coverage, and no reduction
or URL failures. -/
def envOK : PipelineEnv :=
  { serviceAccountEmail := some "service-account"
    privateKey := some "private-key"
    eeInit := .ok ()
    geojsonParse := .ok ()
    parseDate := fun s => if s == "2024-02-01" then 100 else 0
    catalog := fun _ => [img0]
    reduceStat := fun _ _ => some 0
    tsFail := none
    coverage := fun _ => some 1
    statVal := fun _ => some 0
    statsFail := none
    urlOf := fun _ => "https://earthengine.googleapis.com/map/tile-url-template"
    visFail := none }

/-- A concrete `json.loads` oracle consistent with Python on the strings
the theorems use. -/
def jL0 : String → Except String (List String) := fun s =>
  if s == "[\"NDVI\"]" then .ok ["NDVI"]
  else if s == "[]" then .ok []
  else .error "Expecting value: line 1 column 1 (char 0)"

/-- A fully valid `/api/analyze` request. -/
def reqOK : AnalyzeRequest :=
  ⟨some "area.geojson", some "2024-01-01", some "2024-02-01",
    some "sentinel2", some "15", some "[\"NDVI\"]"⟩

/-- The valid request with an unsupported satellite identifier. -/
def reqModis : AnalyzeRequest :=
  ⟨some "area.geojson", some "2024-01-01", some "2024-02-01",
    some "modis", some "15", some "[\"NDVI\"]"⟩

/-- The valid request with an unsupported upload extension. -/
def reqTif : AnalyzeRequest :=
  ⟨some "area.tif", some "2024-01-01", some "2024-02-01",
    some "sentinel2", some "15", some "[\"NDVI\"]"⟩

/-- The valid request with an out-of-range cloud percentage of 150. -/
def req150 : AnalyzeRequest :=
  ⟨some "area.geojson", some "2024-01-01", some "2024-02-01",
    some "sentinel2", some "150", some "[\"NDVI\"]"⟩

/-- A constant reduction oracle for witness instantiations. -/
def r0 : EEImage → String → Option ℚ := fun _ _ => some 0

/-- A constant tile-URL oracle for witness instantiations. -/
def u0 : String → String := fun _ => "https://earthengine.googleapis.com/map/tile-url-template"

/-- C9: SAVI per pixel equals `((NIR - RED) / (NIR + RED + L)) * (1 + L)` with
`L = 0.5`, and at `NIR = 0.5`, `RED = 0.1` the value (6/11) is within 0.001
of 0.5455. -/
theorem savi_formula_value :
    (∀ (img : EEImage) (bm : BandMap),
      get_savi img bm =
        ((img.bands bm.nir - img.bands bm.red) /
            (img.bands bm.nir + img.bands bm.red + (1 / 2 : ℚ))) * (1 + (1 / 2 : ℚ)))
    ∧ get_savi saviTestImage s2BandMap = 6 / 11
    ∧ |get_savi saviTestImage s2BandMap - 5455 / 10000| ≤ 1 / 1000 := by
  have hnir : saviTestImage.bands s2BandMap.nir = 1 / 2 := rfl
  have hred : saviTestImage.bands s2BandMap.red = 1 / 10 := rfl
  have h : get_savi saviTestImage s2BandMap = 6 / 11 := by
    unfold get_savi
    rw [hnir, hred]
    norm_num [saviL]
  refine ⟨fun img bm => rfl, h, ?_⟩
  rw [h, abs_le]
  constructor <;> norm_num

/-- Helper: every list of distinct dates produced by `uniqueDates` is
strictly descending. -/
theorem uniqueDates_pairwise_gt (coll : List EEImage) :
    (uniqueDates coll).Pairwise (· > ·) := by
  unfold uniqueDates
  rw [List.pairwise_reverse]
  have h1 : ((coll.map (fun i => dateOf i.time)).dedup.insertionSort (· ≤ ·)).Sorted (· ≤ ·) :=
    List.sorted_insertionSort _ _
  have h2 : ((coll.map (fun i => dateOf i.time)).dedup.insertionSort (· ≤ ·)).Nodup :=
    ((List.perm_insertionSort _ _).nodup_iff).2 (List.nodup_dedup _)
  exact (h1.and h2).imp (fun h => lt_of_le_of_ne h.1 h.2)

/-- Helper: membership in `uniqueDates` is generation by some image. -/
theorem mem_uniqueDates {coll : List EEImage} {d : Nat} :
    d ∈ uniqueDates coll ↔ ∃ i, i ∈ coll ∧ dateOf i.time = d := by
  unfold uniqueDates
  rw [List.mem_reverse, List.mem_insertionSort _, List.mem_dedup, List.mem_map]

/-- Helper: a date of `uniqueDates` always has a nonempty one-day collection. -/
theorem filter_date_nonempty {coll : List EEImage} {d : Nat} (h : d ∈ uniqueDates coll) :
    (coll.filter (fun i => dateOf i.time == d)).isEmpty = false := by
  obtain ⟨i, hi, hd⟩ := mem_uniqueDates.1 h
  have hmem : i ∈ coll.filter (fun i => dateOf i.time == d) :=
    List.mem_filter.2 ⟨hi, by simp [hd]⟩
  cases hfe : coll.filter (fun i => dateOf i.time == d) with
  | nil => rw [hfe] at hmem; exact absurd hmem (List.not_mem_nil i)
  | cons a t => rfl

/-- Helper: the date scan returns the first (hence, in a strictly descending
list, the newest) date whose coverage passes, provided every date in the
list has a nonempty daily collection. -/
theorem scanDates_eq_some (coll : List EEImage) (cov : Nat → Option ℚ) :
    ∀ L : List Nat, L.Pairwise (· > ·) →
      (∀ x ∈ L, (coll.filter (fun i => dateOf i.time == x)).isEmpty = false) →
      ∀ d ∈ L, covOK (cov d) = true →
      (∀ x ∈ L, d < x → covOK (cov x) = false) →
      scanDates coll cov L = some d := by
  intro L
  induction L with
  | nil => intro _ _ d hd; exact absurd hd (List.not_mem_nil d)
  | cons a t ih =>
    intro hpw hne d hd hcov hgt
    rcases List.mem_cons.1 hd with rfl | hdt
    · rw [scanDates]
      simp [hne d (List.mem_cons_self d t), hcov]
    · have haT : ∀ x ∈ t, a > x := (List.pairwise_cons.1 hpw).1
      have hcova : covOK (cov a) = false :=
        hgt a (List.mem_cons_self a t) (haT d hdt)
      rw [scanDates]
      simp only [hne a (List.mem_cons_self a t), Bool.false_eq_true, if_false, hcova]
      exact ih (List.pairwise_cons.1 hpw).2
        (fun x hx => hne x (List.mem_cons_of_mem a hx)) d hdt hcov
        (fun x hx h' => hgt x (List.mem_cons_of_mem a hx) h')

/-- Helper: if no date ever passes the coverage test, the scan fails. -/
theorem scanDates_eq_none (coll : List EEImage) (cov : Nat → Option ℚ)
    (h : ∀ x, covOK (cov x) = false) : ∀ L, scanDates coll cov L = none := by
  intro L
  induction L with
  | nil => rfl
  | cons a t ih => rw [scanDates]; simp [h a, ih]

/-- Helper: the time-maximum fold of `latestByTime` returns a member of the
list whose timestamp dominates every member, starting from `init`. -/
theorem foldl_maxTime_spec :
    ∀ (l : List EEImage) (init : EEImage),
      (l.foldl (fun a j => if a.time < j.time then j else a) init = init ∨
        l.foldl (fun a j => if a.time < j.time then j else a) init ∈ l)
      ∧ init.time ≤ (l.foldl (fun a j => if a.time < j.time then j else a) init).time
      ∧ ∀ j ∈ l, j.time ≤ (l.foldl (fun a j => if a.time < j.time then j else a) init).time := by
  intro l
  induction l with
  | nil => intro init; exact ⟨Or.inl rfl, le_refl _, by intro j hj; exact absurd hj (List.not_mem_nil j)⟩
  | cons b t ih =>
    intro init
    simp only [List.foldl_cons]
    by_cases hb : init.time < b.time
    · rw [if_pos hb]
      obtain ⟨hmem, hle, hall⟩ := ih b
      refine ⟨?_, le_trans (le_of_lt hb) hle, ?_⟩
      · rcases hmem with h | h
        · exact Or.inr (by rw [h]; exact List.mem_cons_self b t)
        · exact Or.inr (List.mem_cons_of_mem b h)
      · intro j hj
        rcases List.mem_cons.1 hj with rfl | hjt
        · exact hle
        · exact hall j hjt
    · rw [if_neg hb]
      obtain ⟨hmem, hle, hall⟩ := ih init
      refine ⟨?_, hle, ?_⟩
      · rcases hmem with h | h
        · exact Or.inl h
        · exact Or.inr (List.mem_cons_of_mem b h)
      · intro j hj
        rcases List.mem_cons.1 hj with rfl | hjt
        · exact le_trans (le_of_not_lt hb) hle
        · exact hall j hjt

/-- Helper: `latestByTime` returns a member with maximal timestamp. -/
theorem latestByTime_spec (l : List EEImage) (i : EEImage)
    (h : latestByTime l = some i) : i ∈ l ∧ ∀ j ∈ l, j.time ≤ i.time := by
  cases l with
  | nil => cases h
  | cons b t =>
    rw [latestByTime] at h
    obtain ⟨hmem, hle, hall⟩ := foldl_maxTime_spec t b
    have hi : t.foldl (fun a j => if a.time < j.time then j else a) b = i :=
      Option.some.inj h
    rw [hi] at hmem hle hall
    refine ⟨?_, ?_⟩
    · rcases hmem with rfl | hmt
      · exact List.mem_cons_self i t
      · exact List.mem_cons_of_mem b hmt
    · intro j hj
      rcases List.mem_cons.1 hj with rfl | hjt
      · exact hle
      · exact hall j hjt

/-- C1 counterexample: the claim that both accepted satellites filter the
collection down to images with cloud cover at or below the threshold is
false — for `landsat8` a 90 percent cloudy image inside bounds and date
range survives a threshold of 10. -/
theorem cloud_filter_claim_false :
    ¬ (∀ sat ∈ (["sentinel2", "landsat8"] : List String), ∀ out,
        get_collection 0 10 sat 10 catCloudy = Except.ok out →
        ∀ img ∈ out.1, img.cloud ≤ 10) := by
  intro h
  have hmem : "landsat8" ∈ (["sentinel2", "landsat8"] : List String) := by simp
  have heq : get_collection 0 10 "landsat8" 10 catCloudy =
      Except.ok ([scaleL8 imgCloudy], l8BandMap, 30) := rfl
  have hc := h "landsat8" hmem _ heq (scaleL8 imgCloudy) (List.mem_singleton_self _)
  norm_num [scaleL8, imgCloudy] at hc

/-- C1 amended: only the `sentinel2` branch of `get_collection` filters by
cloud cover (together with AOI bounds and date range); the `landsat8`
branch filters by bounds and date only, with no cloud condition. -/
theorem get_collection_filters_amended :
    (∀ (s e : Nat) (p : ℚ) (cat : String → List EEImage) out,
        get_collection s e "sentinel2" p cat = Except.ok out →
        ∀ img ∈ out.1, img.cloud ≤ p ∧ img.inBounds = true ∧ s ≤ img.time ∧ img.time < e)
    ∧ (∀ (s e : Nat) (p : ℚ) (cat : String → List EEImage) out,
        get_collection s e "landsat8" p cat = Except.ok out →
        ∀ img ∈ out.1, img.inBounds = true ∧ s ≤ img.time ∧ img.time < e) := by
  constructor
  · intro s e p cat out h img hmg
    rw [show get_collection s e "sentinel2" p cat =
        Except.ok (((cat "COPERNICUS/S2_SR_HARMONIZED").filter
          (fun i => i.inBounds && inDateRange s e i && decide (i.cloud ≤ p))).map scaleS2,
          s2BandMap, 10) from rfl] at h
    cases h
    obtain ⟨pre, hpre, rfl⟩ := List.mem_map.1 hmg
    obtain ⟨_, hcond⟩ := List.mem_filter.1 hpre
    simp only [Bool.and_eq_true, decide_eq_true_eq, inDateRange] at hcond
    exact ⟨hcond.2, hcond.1.1, hcond.1.2.1, hcond.1.2.2⟩
  · intro s e p cat out h img hmg
    rw [show get_collection s e "landsat8" p cat =
        Except.ok (((cat "LANDSAT/LC08/C02/T1_L2").filter
          (fun i => i.inBounds && inDateRange s e i)).map scaleL8,
          l8BandMap, 30) from rfl] at h
    cases h
    obtain ⟨pre, hpre, rfl⟩ := List.mem_map.1 hmg
    obtain ⟨_, hcond⟩ := List.mem_filter.1 hpre
    simp only [Bool.and_eq_true, decide_eq_true_eq, inDateRange] at hcond
    exact ⟨hcond.1, hcond.2.1, hcond.2.2⟩

/-- C1 witness: instantiating the amended Sentinel-2 filter property at a
concrete catalog with one clean in-range image. -/
theorem get_collection_filters_amended_witness :
    (scaleS2 imgClean).cloud ≤ 20 ∧ (scaleS2 imgClean).inBounds = true ∧
      0 ≤ (scaleS2 imgClean).time ∧ (scaleS2 imgClean).time < 10 :=
  get_collection_filters_amended.1 0 10 20 catClean
    ([scaleS2 imgClean], s2BandMap, 10) rfl (scaleS2 imgClean) (List.mem_singleton_self _)

/-- C2: representative-image selection.  Part one: if a date of the
collection passes the 0.95 coverage test and every strictly newer date
fails it, that date's one-day mosaic is selected.  Part two: if no date
ever passes, the fallback is the image with maximal acquisition timestamp.
Part three: an empty collection yields the error whose text carries
"No images found in the collection for the specified criteria.". -/
theorem get_latest_image_selection :
    (∀ (coll : List EEImage) (cov : Nat → Option ℚ) (d : Nat),
        d ∈ uniqueDates coll → covOK (cov d) = true →
        (∀ x ∈ uniqueDates coll, d < x → covOK (cov x) = false) →
        get_latest_image coll cov (some ()) = .ok (.dateMosaic d))
    ∧ (∀ (coll : List EEImage) (cov : Nat → Option ℚ) (i : EEImage),
        (∀ x, covOK (cov x) = false) → latestByTime coll = some i →
        get_latest_image coll cov (some ()) = .ok (.fallbackImg i.time)
          ∧ i ∈ coll ∧ ∀ j ∈ coll, j.time ≤ i.time)
    ∧ (∀ cov : Nat → Option ℚ,
        get_latest_image ([] : List EEImage) cov (some ()) =
          .error ("Failed to retrieve latest image: " ++
            "No images found in the collection for the specified criteria.")) := by
  refine ⟨?_, ?_, ?_⟩
  · intro coll cov d hd hcov hgt
    have hscan : scanDates coll cov (uniqueDates coll) = some d :=
      scanDates_eq_some coll cov (uniqueDates coll) (uniqueDates_pairwise_gt coll)
        (fun x hx => filter_date_nonempty hx) d hd hcov hgt
    simp [get_latest_image, hscan]
  · intro coll cov i hcov hlt
    have hscan : scanDates coll cov (uniqueDates coll) = none :=
      scanDates_eq_none coll cov hcov _
    obtain ⟨hmem, hmax⟩ := latestByTime_spec coll i hlt
    refine ⟨?_, hmem, hmax⟩
    simp [get_latest_image, hscan, hlt]
  · intro cov
    rfl

/-- C2 witness: with per-date coverage fractions 0.80, 0.97, 0.60 for days
3, 2, 1 (newest first), day 2 is selected; with no coverage at all the
fallback is the newest image; both by applying the selection theorem. -/
theorem get_latest_image_selection_witness :
    get_latest_image collW covW (some ()) = .ok (.dateMosaic 2)
    ∧ get_latest_image collW covNone (some ()) = .ok (.fallbackImg imgW3.time) := by
  have hu : uniqueDates collW = [3, 2, 1] := by decide
  constructor
  · refine get_latest_image_selection.1 collW covW 2 ?_ ?_ ?_
    · rw [hu]; simp
    · norm_num [covOK, covW]
    · intro x hx h2x
      rw [hu] at hx
      simp only [List.mem_cons, List.not_mem_nil, or_false] at hx
      rcases hx with rfl | rfl | rfl
      · norm_num [covOK, covW]
      · omega
      · omega
  · exact (get_latest_image_selection.2.1 collW covNone imgW3 (fun x => rfl) rfl).1

/-- C5: for any requested index set drawn from {NDVI, NDWI, SAVI, EVI},
every time-series record carries exactly the date plus the
`mean_`/`min_`/`max_` fields of the requested indices and no others, and
the visualization mapping's keys are exactly `rgb` plus the requested
indices. -/
theorem time_series_and_visualization_keys :
    ∀ (indices : List String) (coll : List EEImage)
      (reduceStat : EEImage → String → Option ℚ) (urlOf : String → String),
      indices ⊆ ["NDVI", "NDWI", "SAVI", "EVI"] → indices.Nodup →
      (∀ ts, computeTimeSeriesStats coll indices reduceStat none = .ok ts →
        ∀ r ∈ ts, r.map Prod.fst =
          "date" :: indices.flatMap (fun b => ["mean_" ++ b, "min_" ++ b, "max_" ++ b]))
      ∧ (∀ vis, getVisualizationUrls indices urlOf none = .ok vis →
        vis.map Prod.fst = "rgb" :: indices) := by
  intro indices coll reduceStat urlOf _hsub _hnd
  constructor
  · intro ts hts r hr
    cases hts
    obtain ⟨img, _, rfl⟩ := List.mem_map.1 hr
    simp [recordOf, List.map_flatMap]
  · intro vis hvis
    cases hvis
    have hmap : ∀ l : List String, (l.map (fun i => (i, urlOf i))).map Prod.fst = l := by
      intro l
      induction l with
      | nil => rfl
      | cons a t ih => simp [ih]
    simpa using hmap indices

/-- C5 witness: instantiating the key-set property at the index set
`[NDVI, SAVI]`, a one-image collection, and constant oracles. -/
theorem time_series_and_visualization_keys_witness :
    (recordOf r0 ["NDVI", "SAVI"] img0).map Prod.fst =
      "date" :: (["NDVI", "SAVI"].flatMap (fun b => ["mean_" ++ b, "min_" ++ b, "max_" ++ b]))
    ∧ (("rgb", u0 "rgb") :: (["NDVI", "SAVI"].map (fun i => (i, u0 i)))).map Prod.fst =
      "rgb" :: ["NDVI", "SAVI"] := by
  constructor
  · exact (time_series_and_visualization_keys ["NDVI", "SAVI"] [img0] r0 u0
      (by simp [List.cons_subset]) (by decide)).1
      [recordOf r0 ["NDVI", "SAVI"] img0] rfl _ (List.mem_singleton_self _)
  · exact (time_series_and_visualization_keys ["NDVI", "SAVI"] [img0] r0 u0
      (by simp [List.cons_subset]) (by decide)).2
      (("rgb", u0 "rgb") :: (["NDVI", "SAVI"].map (fun i => (i, u0 i)))) rfl

/-- C6: the chat handler returns 400 without contacting the service for
empty/whitespace-only messages; otherwise a 200 service reply gives 200, a
non-200 reply gives 500, a connection error 503, a timeout (bounded by the
30-unit `ollamaTimeout`) 504, and any other raised failure 500. -/
theorem chat_status_codes :
    (∀ (s : String) (rest : List (String × PyVal)) (svc : ServiceOutcome), pyStrip s = "" →
        chat (("message", PyVal.str s) :: rest) svc = ⟨400, "No message provided", false⟩)
    ∧ (∀ s : String, pyStrip s ≠ "" →
        (∀ r, chat [("message", PyVal.str s)] (ServiceOutcome.ok 200 r) =
          ⟨200, "Success", true⟩)
        ∧ (∀ st r, st ≠ 200 → chat [("message", PyVal.str s)] (ServiceOutcome.ok st r) =
          ⟨500, "Failed to get response from AI", true⟩)
        ∧ chat [("message", PyVal.str s)] ServiceOutcome.connErr =
          ⟨503, "Cannot connect to Ollama. Please ensure Ollama is running with llama3.1 model.", true⟩
        ∧ chat [("message", PyVal.str s)] ServiceOutcome.timeout =
          ⟨504, "AI response timeout. Please try again.", true⟩
        ∧ (∀ m, chat [("message", PyVal.str s)] (ServiceOutcome.raised m) =
          ⟨500, "Internal server error: " ++ m, true⟩))
    ∧ ollamaTimeout = 30 := by
  refine ⟨?_, ?_, rfl⟩
  · intro s rest svc h
    simp [chat, pyGet, pyStripAttr, h]
  · intro s h
    have hb : (pyStrip s == "") = false := beq_eq_false_iff_ne.mpr h
    refine ⟨?_, ?_, ?_, ?_, ?_⟩
    · intro r
      simp [chat, pyGet, pyStripAttr, hb]
    · intro st r hst
      have hstb : (st == 200) = false := beq_eq_false_iff_ne.mpr hst
      simp [chat, pyGet, pyStripAttr, hb, hstb]
    · simp [chat, pyGet, pyStripAttr, hb]
    · simp [chat, pyGet, pyStripAttr, hb]
    · intro m
      simp [chat, pyGet, pyStripAttr, hb]

/-- C6 witness: the status mapping applied at a whitespace-only message and
at the message "hello" for each service outcome. -/
theorem chat_status_codes_witness :
    chat [("message", PyVal.str "   ")] ServiceOutcome.connErr =
      ⟨400, "No message provided", false⟩
    ∧ chat [("message", PyVal.str "hello")] (ServiceOutcome.ok 200 "hi") =
      ⟨200, "Success", true⟩
    ∧ chat [("message", PyVal.str "hello")] (ServiceOutcome.ok 404 "no") =
      ⟨500, "Failed to get response from AI", true⟩
    ∧ chat [("message", PyVal.str "hello")] ServiceOutcome.connErr =
      ⟨503, "Cannot connect to Ollama. Please ensure Ollama is running with llama3.1 model.", true⟩
    ∧ chat [("message", PyVal.str "hello")] ServiceOutcome.timeout =
      ⟨504, "AI response timeout. Please try again.", true⟩
    ∧ chat [("message", PyVal.str "hello")] (ServiceOutcome.raised "boom") =
      ⟨500, "Internal server error: " ++ "boom", true⟩ := by
  have h := chat_status_codes
  have hw : pyStrip "   " = "" := rfl
  have hh : pyStrip "hello" ≠ "" := by decide
  exact ⟨h.1 "   " [] ServiceOutcome.connErr hw,
    (h.2.1 "hello" hh).1 "hi",
    (h.2.1 "hello" hh).2.1 404 "no" (by decide),
    (h.2.1 "hello" hh).2.2.1,
    (h.2.1 "hello" hh).2.2.2.1,
    (h.2.1 "hello" hh).2.2.2.2 "boom"⟩

/-- C10: with a JSON object body, a missing `message` key defaults to the
empty string and yields 400 "No message provided" before any service call,
while a `null`-valued `message` key makes `.strip()` raise, so the handler
answers 500 (not 400), also without contacting the service. -/
theorem chat_message_key_handling :
    (∀ svc, chat [] svc = ⟨400, "No message provided", false⟩)
    ∧ (∀ svc, chat [("message", PyVal.null)] svc =
        ⟨500,
          "Internal server error: \x27NoneType\x27 object has no attribute \x27strip\x27",
          false⟩) := by
  exact ⟨fun svc => rfl, fun svc => rfl⟩

/-- Helper: in the all-success environment the representative-image step
selects the single catalog image's date (coverage 1 passes 0.95). -/
theorem get_latest_image_envOK :
    get_latest_image [scaleS2 img0] envOK.coverage (some ()) = .ok (.dateMosaic 0) := by
  have hcov : covOK (envOK.coverage 0) = true := by norm_num [covOK, envOK]
  have hu : uniqueDates [scaleS2 img0] = [0] := by decide
  have hne : ([scaleS2 img0].filter (fun i => dateOf i.time == 0)).isEmpty = false := by decide
  have hscan : scanDates [scaleS2 img0] envOK.coverage (uniqueDates [scaleS2 img0]) = some 0 := by
    rw [hu]
    simp [scanDates, hne, hcov]
  simp [get_latest_image, hscan]

/-- C3 counterexample: a request with a `.tif` upload and a request with an
unsupported satellite both get HTTP 500 (via the handler's generic
exception branch), not the 400 the claim asserts. -/
theorem analyze_unsupported_not_400 :
    analyze reqTif jL0 true envOK =
      (500, "Internal server message: " ++ ("Failed to convert file to Earth Engine geometry: " ++
        "Unsupported file format. Supported: .geojson, .json"))
    ∧ analyze reqModis jL0 true envOK =
      (500, "Internal server message: " ++ "Unsupported satellite. Use: sentinel2, landsat8")
    ∧ (500 : Nat) ≠ 400 :=
  ⟨rfl, rfl, by decide⟩

/-- C3 amended: unsupported upload extensions and unsupported satellite
identifiers are raised as `ValueError` inside the pipeline, caught by the
handler's generic `except Exception`, and answered with 500 carrying the
error text (400 is reserved for the missing-file, missing-field and
parse-error checks). -/
theorem analyze_unsupported_inputs_500 :
    (∀ fn : String, fn ≠ "" →
      strLower (fileExtension ("uploads/" ++ fn)) ∉ ([".geojson", ".json"] : List String) →
      analyze ⟨some fn, some "2024-01-01", some "2024-02-01", some "sentinel2", some "15",
          some "[\"NDVI\"]"⟩ jL0 true envOK =
        (500, "Internal server message: " ++ ("Failed to convert file to Earth Engine geometry: " ++
          "Unsupported file format. Supported: .geojson, .json")))
    ∧ (∀ sat : String, sat ≠ "" → strLower sat ≠ "sentinel2" → strLower sat ≠ "landsat8" →
      analyze ⟨some "area.geojson", some "2024-01-01", some "2024-02-01", some sat, some "15",
          some "[\"NDVI\"]"⟩ jL0 true envOK =
        (500, "Internal server message: " ++ "Unsupported satellite. Use: sentinel2, landsat8")) := by
  constructor
  · intro fn hfn hext
    have hb1 : (strLower (fileExtension ("uploads/" ++ fn)) == ".geojson") = false :=
      beq_eq_false_iff_ne.mpr (fun h => hext (by simp [h]))
    have hb2 : (strLower (fileExtension ("uploads/" ++ fn)) == ".json") = false :=
      beq_eq_false_iff_ne.mpr (fun h => hext (by simp [h]))
    have hconv : convert_to_ee envOK.geojsonParse ("uploads/" ++ fn) =
        .error ("Failed to convert file to Earth Engine geometry: " ++
          "Unsupported file format. Supported: .geojson, .json") := by
      simp [convert_to_ee, hb1, hb2]
    have h1 : eeAuth envOK = (true, Except.ok ()) := rfl
    have hsa : (start_automation envOK ("uploads/" ++ fn) "2024-01-01" "2024-02-01"
        "sentinel2" (15 : ℚ) ["NDVI"]).2 =
        .error ("Failed to convert file to Earth Engine geometry: " ++
          "Unsupported file format. Supported: .geojson, .json") := by
      simp only [start_automation, h1, hconv]
    simp only [analyze, beq_eq_false_iff_ne.mpr hfn,
      show pyIntParse "15" = some 15 from rfl,
      show jL0 "[\"NDVI\"]" = Except.ok ["NDVI"] from rfl]
    simp [hsa]
  · intro sat hsat h1s h2s
    have hb1 : (strLower sat == "sentinel2") = false := beq_eq_false_iff_ne.mpr h1s
    have hb2 : (strLower sat == "landsat8") = false := beq_eq_false_iff_ne.mpr h2s
    have hcol : get_collection (envOK.parseDate "2024-01-01") (envOK.parseDate "2024-02-01")
        sat (15 : ℚ) envOK.catalog =
        .error "Unsupported satellite. Use: sentinel2, landsat8" := by
      simp [get_collection, hb1, hb2]
    have h1 : eeAuth envOK = (true, Except.ok ()) := rfl
    have h2 : convert_to_ee envOK.geojsonParse "uploads/area.geojson" = Except.ok () := rfl
    have hsa : (start_automation envOK "uploads/area.geojson" "2024-01-01" "2024-02-01"
        sat (15 : ℚ) ["NDVI"]).2 =
        .error "Unsupported satellite. Use: sentinel2, landsat8" := by
      simp only [start_automation, h1, h2, hcol]
    simp only [analyze, beq_eq_false_iff_ne.mpr hsat,
      show pyIntParse "15" = some 15 from rfl,
      show jL0 "[\"NDVI\"]" = Except.ok ["NDVI"] from rfl]
    simp [hsa]

/-- C3 amended witness: the 500 responses at a `.tif` upload and at the
satellite identifier `MODIS`. -/
theorem analyze_unsupported_inputs_500_witness :
    analyze ⟨some "b.tif", some "2024-01-01", some "2024-02-01", some "sentinel2", some "15",
        some "[\"NDVI\"]"⟩ jL0 true envOK =
      (500, "Internal server message: " ++ ("Failed to convert file to Earth Engine geometry: " ++
        "Unsupported file format. Supported: .geojson, .json"))
    ∧ analyze ⟨some "area.geojson", some "2024-01-01", some "2024-02-01", some "MODIS", some "15",
        some "[\"NDVI\"]"⟩ jL0 true envOK =
      (500, "Internal server message: " ++ "Unsupported satellite. Use: sentinel2, landsat8") :=
  ⟨analyze_unsupported_inputs_500.1 "b.tif" (by decide) (by decide),
   analyze_unsupported_inputs_500.2 "MODIS" (by decide) (by decide) (by decide)⟩

/-- C4 counterexample: `cloudPercentage = 150` is outside the platform
range 0-100, yet the handler performs no range check — the request parses,
the pipeline runs, and the response is 200, not the claimed 400. -/
theorem analyze_cloud_range_claim_false :
    analyze req150 jL0 true envOK = (200, "Analysis complete")
    ∧ ¬ ((150 : Int) ≤ 100) ∧ (200 : Nat) ≠ 400 := by
  refine ⟨?_, by decide, by decide⟩
  have h1 : eeAuth envOK = (true, Except.ok ()) := rfl
  have h2 : convert_to_ee envOK.geojsonParse "uploads/area.geojson" = Except.ok () := rfl
  have h3 : get_collection (envOK.parseDate "2024-01-01") (envOK.parseDate "2024-02-01")
      "sentinel2" (150 : ℚ) envOK.catalog = .ok ([scaleS2 img0], s2BandMap, 10) := rfl
  have h4 : computeTimeSeriesStats [scaleS2 img0] ["NDVI"] envOK.reduceStat envOK.tsFail =
      .ok [recordOf envOK.reduceStat ["NDVI"] (scaleS2 img0)] := rfl
  have h6 : computeStats ["NDVI"] envOK.statVal envOK.statsFail =
      .ok ([("mean_" ++ "NDVI", envOK.statVal ("mean_" ++ "NDVI"))] ++
        [("veg_cover_percent", envOK.statVal "veg_cover_percent"),
         ("total_area_km2", envOK.statVal "total_area_km2"),
         ("healthy_area_km2", envOK.statVal "healthy_area_km2")]) := rfl
  have h7 : getVisualizationUrls ["NDVI"] envOK.urlOf envOK.visFail =
      .ok (("rgb", envOK.urlOf "rgb") :: [("NDVI", envOK.urlOf "NDVI")]) := rfl
  have hsa : (start_automation envOK "uploads/area.geojson" "2024-01-01" "2024-02-01"
      "sentinel2" (150 : ℚ) ["NDVI"]).2.isOk = true := by
    simp only [start_automation, h1, h2, h3, h4, get_latest_image_envOK, h6, h7]
    rfl
  rcases hok : (start_automation envOK "uploads/area.geojson" "2024-01-01" "2024-02-01"
      "sentinel2" (150 : ℚ) ["NDVI"]).2 with e | out
  · rw [hok] at hsa; cases hsa
  · simp only [analyze, req150, show pyIntParse "150" = some 150 from rfl,
      show jL0 "[\"NDVI\"]" = Except.ok ["NDVI"] from rfl]
    simp [hok]

/-- C4 amended: a `cloudPercentage` that fails Python `int()` parsing, or
an `indices` field whose `json.loads` raises, always yields 400 with a
message naming the parse error (never 500); integer values outside 0-100
are not rejected at all. -/
theorem analyze_form_parse_errors :
    (∀ cps : String, cps ≠ "" → pyIntParse cps = none →
      analyze ⟨some "area.geojson", some "2024-01-01", some "2024-02-01", some "sentinel2",
          some cps, some "[\"NDVI\"]"⟩ jL0 true envOK =
        (400, "Invalid form data: invalid literal for int() with base 10: \x27" ++ cps ++ "\x27"))
    ∧ (∀ (jl : String → Except String (List String)) (idxs m : String), idxs ≠ "" →
      jl idxs = .error m →
      analyze ⟨some "area.geojson", some "2024-01-01", some "2024-02-01", some "sentinel2",
          some "15", some idxs⟩ jl true envOK = (400, "Invalid form data: " ++ m)) := by
  constructor
  · intro cps hne hparse
    simp only [analyze, beq_eq_false_iff_ne.mpr hne, hparse]
    simp
  · intro jl idxs m hne hjl
    simp only [analyze, beq_eq_false_iff_ne.mpr hne,
      show pyIntParse "15" = some 15 from rfl, hjl]
    simp

/-- C4 amended witness: 400 with the parse-error message at
`cloudPercentage = "abc"` and at the non-JSON indices string "notjson". -/
theorem analyze_form_parse_errors_witness :
    analyze ⟨some "area.geojson", some "2024-01-01", some "2024-02-01", some "sentinel2",
        some "abc", some "[\"NDVI\"]"⟩ jL0 true envOK =
      (400, "Invalid form data: invalid literal for int() with base 10: \x27" ++ "abc" ++ "\x27")
    ∧ analyze ⟨some "area.geojson", some "2024-01-01", some "2024-02-01", some "sentinel2",
        some "15", some "notjson"⟩ jL0 true envOK =
      (400, "Invalid form data: " ++ "Expecting value: line 1 column 1 (char 0)") :=
  ⟨analyze_form_parse_errors.1 "abc" (by decide) rfl,
   analyze_form_parse_errors.2 jL0 "notjson" "Expecting value: line 1 column 1 (char 0)"
     (by decide) rfl⟩

/-- C7 counterexample: the collection-selection failure is raised as
`ValueError("Unsupported satellite. Use: sentinel2, landsat8")` with no
stage-identifying prefix at all — no nonempty prefix can be split off the
propagated message while keeping the original text as its suffix. -/
theorem pipeline_wrapping_claim_false :
    (start_automation envOK "uploads/area.geojson" "2024-01-01" "2024-02-01" "modis" 15
        ["NDVI"]).2 = .error "Unsupported satellite. Use: sentinel2, landsat8"
    ∧ ¬ ∃ p : String, p ≠ "" ∧
        "Unsupported satellite. Use: sentinel2, landsat8" =
          p ++ "Unsupported satellite. Use: sentinel2, landsat8" := by
  constructor
  · rfl
  · rintro ⟨p, hp, he⟩
    have hl := congrArg String.length he
    rw [String.length_append] at hl
    have hz : p.length = 0 := by omega
    apply hp
    cases p with
    | mk d =>
      have hd : d.length = 0 := hz
      rw [List.length_eq_zero.mp hd]

/-- C7 amended: every pipeline stage except collection selection re-raises
its failure as the single domain error with a stage prefix followed by the
original message (authentication, geometry conversion, time-series stats,
representative image, summary stats, visualization URLs); collection
selection raises its `ValueError` un-prefixed; and the handler converts
any pipeline error to a 500 response carrying that message. -/
theorem pipeline_error_wrapping_amended :
    (∀ m : String, (start_automation { envOK with eeInit := .error m } "uploads/area.geojson"
        "2024-01-01" "2024-02-01" "sentinel2" 15 ["NDVI"]).2 =
      .error ("Failed to initialize Earth Engine: " ++ m))
    ∧ (∀ m : String, (start_automation { envOK with geojsonParse := .error m }
        "uploads/area.geojson" "2024-01-01" "2024-02-01" "sentinel2" 15 ["NDVI"]).2 =
      .error ("Failed to convert file to Earth Engine geometry: " ++ m))
    ∧ (start_automation envOK "uploads/area.geojson" "2024-01-01" "2024-02-01" "modis" 15
        ["NDVI"]).2 = .error "Unsupported satellite. Use: sentinel2, landsat8"
    ∧ (∀ m : String, (start_automation { envOK with tsFail := some m } "uploads/area.geojson"
        "2024-01-01" "2024-02-01" "sentinel2" 15 ["NDVI"]).2 =
      .error ("Failed to compute time-series stats: " ++ m))
    ∧ (start_automation { envOK with catalog := fun _ => [] } "uploads/area.geojson"
        "2024-01-01" "2024-02-01" "sentinel2" 15 ["NDVI"]).2 =
      .error ("Failed to retrieve latest image: " ++
        "No images found in the collection for the specified criteria.")
    ∧ (∀ m : String, (start_automation { envOK with statsFail := some m } "uploads/area.geojson"
        "2024-01-01" "2024-02-01" "sentinel2" 15 ["NDVI"]).2 =
      .error ("Failed to compute stats: " ++ m))
    ∧ (∀ m : String, (start_automation { envOK with visFail := some m } "uploads/area.geojson"
        "2024-01-01" "2024-02-01" "sentinel2" 15 ["NDVI"]).2 =
      .error ("Failed to generate visualization URLs: " ++ m))
    ∧ (∀ (e : String) (env : PipelineEnv),
        (start_automation env "uploads/area.geojson" "2024-01-01" "2024-02-01" "sentinel2"
          (15 : ℚ) ["NDVI"]).2 = .error e →
        analyze reqOK jL0 true env = (500, "Internal server message: " ++ e)) := by
  refine ⟨fun m => rfl, fun m => rfl, rfl, fun m => rfl, rfl, ?_, ?_, ?_⟩
  · intro m
    have h1 : eeAuth { envOK with statsFail := some m } = (true, Except.ok ()) := rfl
    have h2 : convert_to_ee envOK.geojsonParse "uploads/area.geojson" = Except.ok () := rfl
    have h3 : get_collection (envOK.parseDate "2024-01-01") (envOK.parseDate "2024-02-01")
        "sentinel2" (15 : ℚ) envOK.catalog = .ok ([scaleS2 img0], s2BandMap, 10) := rfl
    have h4 : computeTimeSeriesStats [scaleS2 img0] ["NDVI"] envOK.reduceStat envOK.tsFail =
        .ok [recordOf envOK.reduceStat ["NDVI"] (scaleS2 img0)] := rfl
    have h6 : computeStats ["NDVI"] envOK.statVal (some m) =
        .error ("Failed to compute stats: " ++ m) := rfl
    simp only [start_automation, h1, h2, h3, h4, get_latest_image_envOK, h6]
  · intro m
    have h1 : eeAuth { envOK with visFail := some m } = (true, Except.ok ()) := rfl
    have h2 : convert_to_ee envOK.geojsonParse "uploads/area.geojson" = Except.ok () := rfl
    have h3 : get_collection (envOK.parseDate "2024-01-01") (envOK.parseDate "2024-02-01")
        "sentinel2" (15 : ℚ) envOK.catalog = .ok ([scaleS2 img0], s2BandMap, 10) := rfl
    have h4 : computeTimeSeriesStats [scaleS2 img0] ["NDVI"] envOK.reduceStat envOK.tsFail =
        .ok [recordOf envOK.reduceStat ["NDVI"] (scaleS2 img0)] := rfl
    have h6 : computeStats ["NDVI"] envOK.statVal envOK.statsFail =
        .ok ([("mean_" ++ "NDVI", envOK.statVal ("mean_" ++ "NDVI"))] ++
          [("veg_cover_percent", envOK.statVal "veg_cover_percent"),
           ("total_area_km2", envOK.statVal "total_area_km2"),
           ("healthy_area_km2", envOK.statVal "healthy_area_km2")]) := rfl
    have h7 : getVisualizationUrls ["NDVI"] envOK.urlOf (some m) =
        .error ("Failed to generate visualization URLs: " ++ m) := rfl
    simp only [start_automation, h1, h2, h3, h4, get_latest_image_envOK, h6, h7]
  · intro e env h
    simp only [analyze, reqOK, show pyIntParse "15" = some 15 from rfl,
      show jL0 "[\"NDVI\"]" = Except.ok ["NDVI"] from rfl]
    simp [h]

/-- C7 amended witness: the handler-mapping part applied to a concrete
environment whose authentication fails with "boom". -/
theorem pipeline_error_wrapping_amended_witness :
    analyze reqOK jL0 true { envOK with eeInit := .error "boom" } =
      (500, "Internal server message: " ++ ("Failed to initialize Earth Engine: " ++ "boom")) :=
  pipeline_error_wrapping_amended.2.2.2.2.2.2.2 ("Failed to initialize Earth Engine: " ++ "boom")
    { envOK with eeInit := .error "boom" } rfl

/-- C8 counterexample: uploading a `.tif` file is rejected with
"Unsupported file format", but only after the `ee.Initialize`
authentication round trip — the trace of platform calls at the moment of
rejection is `[auth]`, not empty as the claim requires. -/
theorem tif_rejection_claim_false :
    start_automation envOK "uploads/area.tif" "2024-01-01" "2024-02-01" "sentinel2" 15 ["NDVI"] =
      ([EEEvent.auth], .error ("Failed to convert file to Earth Engine geometry: " ++
        "Unsupported file format. Supported: .geojson, .json"))
    ∧ ([EEEvent.auth] : List EEEvent) ≠ [] :=
  ⟨rfl, by simp⟩

/-- C8 amended: an upload whose extension is not `.geojson`/`.json` is
rejected with "Unsupported file format" reachable in the error text after
the platform authentication call but before any further platform call
(the trace is exactly `[auth]`). -/
theorem tif_rejection_after_auth :
    ∀ (p sd ed sat : String) (cp : ℚ) (inds : List String),
      strLower (fileExtension p) ∉ ([".geojson", ".json"] : List String) →
      start_automation envOK p sd ed sat cp inds =
        ([EEEvent.auth], .error ("Failed to convert file to Earth Engine geometry: " ++
          "Unsupported file format. Supported: .geojson, .json")) := by
  intro p sd ed sat cp inds hext
  have hb1 : (strLower (fileExtension p) == ".geojson") = false :=
    beq_eq_false_iff_ne.mpr (fun h => hext (by simp [h]))
  have hb2 : (strLower (fileExtension p) == ".json") = false :=
    beq_eq_false_iff_ne.mpr (fun h => hext (by simp [h]))
  have hconv : convert_to_ee envOK.geojsonParse p =
      .error ("Failed to convert file to Earth Engine geometry: " ++
        "Unsupported file format. Supported: .geojson, .json") := by
    simp [convert_to_ee, hb1, hb2]
  have h1 : eeAuth envOK = (true, Except.ok ()) := rfl
  simp only [start_automation, h1, hconv]

/-- C8 amended witness: the `[auth]`-then-reject behavior at the concrete
upload path `uploads/b.tif`. -/
theorem tif_rejection_after_auth_witness :
    start_automation envOK "uploads/b.tif" "2024-01-01" "2024-02-01" "sentinel2" 15 ["NDVI"] =
      ([EEEvent.auth], .error ("Failed to convert file to Earth Engine geometry: " ++
        "Unsupported file format. Supported: .geojson, .json")) :=
  tif_rejection_after_auth "uploads/b.tif" "2024-01-01" "2024-02-01" "sentinel2" 15 ["NDVI"]
    (by decide)
